import Mathlib

/-!
Shallow embedding of `modules/sagemaker/sagemaker-endpoint/stack.py`
(`get_timestamp` and `DeployEndpointStack.__init__`), the deployment-planning
logic specified as the "Deployment Planner".  The construction of the stack is
modelled as a pure function from an environment (clock, ambient region/account,
VPC lookup, artifact registry) and a request (the constructor parameters) to
either a completed stack description or an error carrying the constructs that had
already been created when the exception was raised.
-/

namespace SmEndpoint

/-- Python truthiness of an `Optional[str]` value: `None` and the empty string
are falsy, every other string is truthy.  Used wherever the source writes
`if x:` or `if not x:` on an optional string parameter. -/
def truthy : Option String → Bool
  | none => false
  | some s => s != ""

/-- A wall-clock reading at second resolution, the six fields of a Python
`datetime` that `strftime("%Y%m%d%H%M%S")` consumes. -/
structure PyDateTime where
  year : Nat
  month : Nat
  day : Nat
  hour : Nat
  minute : Nat
  second : Nat
  deriving Repr, DecidableEq

/-- Zero-padded two-digit rendering, as `%m %d %H %M %S` produce. -/
def pad2 (n : Nat) : String :=
  if n < 10 then "0" ++ toString n else toString n

/-- Zero-padded four-digit rendering, as `%Y` produces. -/
def pad4 (n : Nat) : String :=
  if n < 10 then "000" ++ toString n
  else if n < 100 then "00" ++ toString n
  else if n < 1000 then "0" ++ toString n
  else toString n

/-- Python `datetime.strftime("%Y%m%d%H%M%S")`. -/
def strftimeYmdHMS (d : PyDateTime) : String :=
  pad4 d.year ++ pad2 d.month ++ pad2 d.day ++ pad2 d.hour ++ pad2 d.minute ++ pad2 d.second

/-- Python `datetime.replace(tzinfo=timezone.utc)`: relabels the timezone of a
naive datetime and leaves every wall-clock field unchanged.  It does NOT
convert the reading to UTC. -/
def replaceTzinfoUtc (d : PyDateTime) : PyDateTime := d

/-- The environment of one `DeployEndpointStack.__init__` invocation: the
machine clock, the ambient CDK stack context (`self.region`, `self.account`),
the VPC lookup service and the artifact registry. -/
structure Env where
  /-- Local wall-clock time returned by the n-th `datetime.now()` call made
  during the invocation (`datetime.now()` with no argument reads the machine
  local time, not UTC). -/
  localClock : Nat → PyDateTime
  /-- The actual UTC time at the moment of the n-th `datetime.now()` call.
  Equal to `localClock n` only when the machine timezone is UTC. -/
  utcClock : Nat → PyDateTime
  /-- `self.region` of the stack. -/
  region : String
  /-- `self.account` of the stack. -/
  account : String
  /-- `ec2.Vpc.from_lookup(...).vpc_cidr_block` for a given vpc id. -/
  vpcCidrOf : String → String
  /-- Modelled from the spec: the external artifact-registry lookup
  `get_latest_approved(region, group_id) -> artifact_id` (the source imports it
  from `scripts/get_approved_package.py`, which is not part of the planner
  itself); modelled as an opaque environment-supplied oracle. -/
  approved : String → String → String

/-- Source lines 19-21: `get_timestamp()` formats `datetime.now()` relabelled
as UTC.  The `call` index says which `datetime.now()` reading of the current
invocation is consumed (the source calls `get_timestamp()` twice, at lines 140
and 164). -/
def get_timestamp (env : Env) (call : Nat) : String :=
  strftimeYmdHMS (replaceTzinfoUtc (env.localClock call))

/-- One IAM policy statement as built by `iam.PolicyStatement(...)`. -/
structure PolicyStatement where
  actions : List String
  resources : List String
  effect : String
  deriving Repr, DecidableEq

/-- Source lines 66-87: the baseline telemetry / log / network-interface
statement, unscoped. -/
def baselineStatement : PolicyStatement :=
  { actions :=
      ["cloudwatch:PutMetricData", "logs:CreateLogStream", "logs:PutLogEvents",
       "logs:CreateLogGroup", "logs:DescribeLogStreams", "ecr:GetAuthorizationToken",
       "ec2:CreateNetworkInterface", "ec2:CreateNetworkInterfacePermission",
       "ec2:DeleteNetworkInterface", "ec2:DeleteNetworkInterfacePermission",
       "ec2:DescribeNetworkInterfaces", "ec2:DescribeVpcs", "ec2:DescribeDhcpOptions",
       "ec2:DescribeSubnets", "ec2:DescribeSecurityGroups"],
    resources := ["*"],
    effect := "Allow" }

/-- Source lines 88-99: the KMS statement scoped to the account key namespace. -/
def kmsStatement (region account : String) : PolicyStatement :=
  { actions := ["kms:Encrypt", "kms:ReEncrypt*", "kms:GenerateDataKey*", "kms:Decrypt", "kms:DescribeKey"],
    resources := ["arn:aws:kms:" ++ region ++ ":" ++ account ++ ":key/*"],
    effect := "Allow" }

/-- Source lines 106-111: the unscoped S3 fallback statement attached when no
model-artifacts bucket is supplied. -/
def broadS3Statement : PolicyStatement :=
  { actions := ["s3:ListBucket", "s3:GetObject"],
    resources := ["*"],
    effect := "Allow" }

/-- Source lines 113-125: the ECR image-pull statement, scoped to the supplied
repository arn or to `*`. -/
def ecrStatement (resource : String) : PolicyStatement :=
  { actions := ["ecr:BatchCheckLayerAvailability", "ecr:GetDownloadUrlForLayer", "ecr:BatchGetImage"],
    resources := [resource],
    effect := "Allow" }

/-- A newly minted model execution role: lines 60-125. -/
structure CreatedRole where
  assumedBy : String
  statements : List PolicyStatement
  /-- Buckets on which `bucket.grant_read(role)` was invoked (the grant is
  delegated to the bucket construct, line 104). -/
  grantReadBuckets : List String
  deriving Repr, DecidableEq

/-- The resolved model execution role: created fresh (lines 58-125) or a
pass-through reference via `iam.Role.from_role_arn` (line 128). -/
inductive RoleResolution
  | created (role : CreatedRole)
  | fromRoleArn (arn : String)
  deriving Repr, DecidableEq

/-- The `role_arn` attribute read at line 144: a deploy-time token for a
created role, the caller-supplied arn for an imported role. -/
def RoleResolution.roleArn : RoleResolution → String
  | created _ => "TOKEN:ModelExecutionRole.roleArn"
  | fromRoleArn arn => arn

/-- Policy statements attached to the resolved role (an imported role gets
none). -/
def RoleResolution.statements : RoleResolution → List PolicyStatement
  | created r => r.statements
  | fromRoleArn _ => []

/-- Buckets whose native grant mechanism was invoked for the resolved role. -/
def RoleResolution.grantReadBuckets : RoleResolution → List String
  | created r => r.grantReadBuckets
  | fromRoleArn _ => []

/-- Source lines 51-55: the security group with its single ingress rule. -/
structure SecurityGroupSpec where
  vpcId : String
  allowAllOutbound : Bool
  /-- Pairs of (peer CIDR, connection) added via `add_ingress_rule`. -/
  ingressRules : List (String × String)
  deriving Repr, DecidableEq

/-- Source lines 141-151: the `sagemaker.CfnModel` properties. -/
structure ModelSpec where
  executionRoleArn : String
  modelName : String
  /-- `model_package_name` of each container definition. -/
  containers : List String
  vpcSecurityGroupIds : List String
  vpcSubnets : List String
  deriving Repr, DecidableEq

/-- Source lines 155-161: the `kms.Key` properties and grants. -/
structure KmsKeySpec where
  description : String
  enableKeyRotation : Bool
  keyId : String
  /-- Pairs of (principal, grant) recorded by grant calls on the key. -/
  grants : List (String × String)
  deriving Repr, DecidableEq

/-- Source lines 165-177: the `sagemaker.CfnEndpointConfig` properties. -/
structure EndpointConfigSpec where
  endpointConfigName : String
  kmsKeyId : String
  /-- Each production variant is the keyword-argument list of its constructor
  call (values of the caller map are modelled opaquely as strings). -/
  productionVariants : List (List (String × String))
  /-- Construct ids passed to `add_dependency`. -/
  dependsOn : List String
  deriving Repr, DecidableEq

/-- Source lines 180-185: the `sagemaker.CfnEndpoint` properties. -/
structure EndpointSpec where
  endpointConfigName : String
  /-- Construct ids passed to `add_dependency`. -/
  dependsOn : List String
  deriving Repr, DecidableEq

/-- Source lines 193-202: one `NagPackSuppression` attached via
`NagSuppressions.add_resource_suppressions`. -/
structure NagSuppressionRecord where
  targetCid : String
  applyToChildren : Bool
  suppressionId : String
  reason : String
  deriving Repr, DecidableEq

/-- The kinds of planned infrastructure objects. -/
inductive Kind
  | SecurityGroup
  | Role
  | Model
  | EncryptionKey
  | EndpointConfig
  | Endpoint
  deriving Repr, DecidableEq

/-- One planned resource node: its kind, its construct id within the stack and
the construct ids it depends on (implicit attribute references plus explicit
`add_dependency` edges). -/
structure Node where
  kind : Kind
  cid : String
  deps : List String
  deriving Repr, DecidableEq

/-- The constructor parameters of `DeployEndpointStack.__init__`
(lines 25-39).  `id` is the construct id, used as the deployment id prefix of
every generated name. -/
structure Request where
  id : String
  sagemaker_project_id : Option String
  sagemaker_project_name : Option String
  model_package_arn : Option String
  model_package_group_name : Option String
  model_execution_role_arn : Option String
  vpc_id : String
  subnet_ids : List String
  model_artifacts_bucket_arn : Option String
  ecr_repo_arn : Option String
  endpoint_config_prod_variant : List (String × String)
  deriving Repr, DecidableEq

/-- Source lines 43-46: project tags added to the stack when the corresponding
parameter is truthy. -/
def stackTags (req : Request) : List (String × String) :=
  (if truthy req.sagemaker_project_id then
     [("sagemaker:project-id", req.sagemaker_project_id.getD "")]
   else [])
  ++ (if truthy req.sagemaker_project_name then
     [("sagemaker:project-name", req.sagemaker_project_name.getD "")]
   else [])

/-- Source lines 49-55: the security group, always created, allowing all
outbound traffic and all-TCP ingress from the VPC CIDR block only. -/
def securityGroupOf (env : Env) (req : Request) : SecurityGroupSpec :=
  { vpcId := req.vpc_id,
    allowAllOutbound := true,
    ingressRules := [(env.vpcCidrOf req.vpc_id, "ALL_TCP")] }

/-- Source lines 57-128: role resolution.  `if not model_execution_role_arn`
a fresh role is created with the baseline, KMS, bucket (grant or unscoped
fallback) and ECR permissions; otherwise the caller arn is imported as-is. -/
def resolveRole (env : Env) (req : Request) : RoleResolution :=
  if !(truthy req.model_execution_role_arn) then
    RoleResolution.created
      { assumedBy := "sagemaker.amazonaws.com",
        statements :=
          [baselineStatement, kmsStatement env.region env.account]
          ++ (if truthy req.model_artifacts_bucket_arn then [] else [broadS3Statement])
          ++ [ecrStatement (if truthy req.ecr_repo_arn then req.ecr_repo_arn.getD "" else "*")],
        grantReadBuckets :=
          if truthy req.model_artifacts_bucket_arn then
            [req.model_artifacts_bucket_arn.getD ""]
          else [] }
  else
    RoleResolution.fromRoleArn (req.model_execution_role_arn.getD "")

/-- Message of the `ValueError` raised at source line 135. -/
def valueErrorMsg : String :=
  "ValueError: Either model_package_arn or model_package_group_name is required"

/-- Message of the `TypeError` Python raises when the splatted
`endpoint_config_prod_variant` dict repeats the explicitly passed
`model_name` keyword (source lines 170-175). -/
def dupModelNameMsg : String :=
  "TypeError: ProductionVariantProperty got multiple values for keyword argument model_name"

/-- Source lines 130-137: artifact-version resolution.  Returns the resolved
model package arn together with the registry calls made, or the `ValueError`
message when neither identifier is truthy. -/
def resolveArtifact (env : Env) (req : Request) :
    Except String (String × List (String × String)) :=
  if !(truthy req.model_package_arn) then
    if truthy req.model_package_group_name then
      Except.ok
        (env.approved env.region (req.model_package_group_name.getD ""),
         [(env.region, req.model_package_group_name.getD "")])
    else
      Except.error valueErrorMsg
  else
    Except.ok (req.model_package_arn.getD "", [])

/-- Python keyword-argument call semantics of
`ProductionVariantProperty(model_name=model_name, **endpoint_config_prod_variant)`
(source lines 171-174): a key of the splatted dict that repeats the explicit
`model_name` keyword raises `TypeError` before the constructor body runs. -/
def productionVariantKwargs (modelName : String) (splat : List (String × String)) :
    Except String (List (String × String)) :=
  if (splat.map Prod.fst).contains "model_name" then
    Except.error dupModelNameMsg
  else
    Except.ok (("model_name", modelName) :: splat)

/-- The security group node (construct id "Security Group", no dependency on
other nodes of the plan; the VPC is an external lookup). -/
def securityGroupNode : Node :=
  { kind := Kind.SecurityGroup, cid := "Security Group", deps := [] }

/-- The created-role node (construct id "Model Execution Role"). -/
def roleNode : Node :=
  { kind := Kind.Role, cid := "Model Execution Role", deps := [] }

/-- Role nodes emitted by the plan: one when the role is newly created, none
when the caller arn is imported (an imported role is not a stack resource). -/
def roleNodesOf (req : Request) : List Node :=
  if !(truthy req.model_execution_role_arn) then [roleNode] else []

/-- The model node: depends on the created role (via the `role_arn` token
reference) and on the security group (via the `security_group_id` token
reference). -/
def modelNodeOf (req : Request) : Node :=
  { kind := Kind.Model, cid := "Model",
    deps :=
      (if !(truthy req.model_execution_role_arn) then ["Model Execution Role"] else [])
      ++ ["Security Group"] }

/-- The KMS key node (construct id "Endpoint Key"). -/
def encryptionKeyNode : Node :=
  { kind := Kind.EncryptionKey, cid := "Endpoint Key", deps := [] }

/-- The endpoint-config node: depends on the key (via the `key_id` token
reference) and on the model (explicit `add_dependency`, line 177). -/
def endpointConfigNode : Node :=
  { kind := Kind.EndpointConfig, cid := "Endpoint Configuration",
    deps := ["Endpoint Key", "Model"] }

/-- The endpoint node: references the config by name (a plain string, not a
token) and depends on it through the explicit `add_dependency` at line 185. -/
def endpointNode : Node :=
  { kind := Kind.Endpoint, cid := "Endpoint", deps := ["Endpoint Configuration"] }

/-- Source lines 155-161: the endpoint KMS key, created unconditionally with
rotation enabled and encrypt/decrypt granted to the account root principal. -/
def endpointKmsKey : KmsKeySpec :=
  { description := "Key used for encryption of data in Amazon SageMaker Endpoint",
    enableKeyRotation := true,
    keyId := "TOKEN:EndpointKey.keyId",
    grants := [("AccountRootPrincipal", "encrypt-decrypt")] }

/-- Source lines 193-202: the cdk-nag suppression attached to the created role
and all its children. -/
def iam5Suppression : NagSuppressionRecord :=
  { targetCid := "Model Execution Role",
    applyToChildren := true,
    suppressionId := "AwsSolutions-IAM5",
    reason := "Model execution role requires some generic permissions." }

/-- The completed stack of a successful `__init__` run. -/
structure StackResult where
  tags : List (String × String)
  securityGroup : SecurityGroupSpec
  role : RoleResolution
  model_package_arn : String
  /-- `(region, group)` arguments of each `get_approved_package` call made. -/
  registryCalls : List (String × String)
  model : ModelSpec
  kmsKey : KmsKeySpec
  endpointConfig : EndpointConfigSpec
  endpoint : EndpointSpec
  endpoint_url : String
  nagSuppressions : List NagSuppressionRecord
  /-- The plan's resource nodes in construct-creation order. -/
  nodes : List Node
  deriving Repr, DecidableEq

/-- A raised exception, together with the resource constructs that had already
been created inside the stack at the point of the raise, and the registry
calls that had already been made. -/
structure BuildError where
  msg : String
  nodesEmitted : List Node
  registryCalls : List (String × String)
  deriving Repr, DecidableEq

/-- Outcome of one `DeployEndpointStack.__init__` invocation. -/
inductive BuildOutcome
  | ok (result : StackResult)
  | err (e : BuildError)
  deriving Repr, DecidableEq

/-- The stack produced on the success path of `__init__`, given the resolved
artifact `ac` (arn and registry calls, lines 130-137) and the merged
production-variant keyword list (lines 170-175).  Field by field this is the
straight-line body of lines 43-202. -/
def successOf (env : Env) (req : Request) (ac : String × List (String × String))
    (variant : List (String × String)) : StackResult :=
  { tags := stackTags req,
    securityGroup := securityGroupOf env req,
    role := resolveRole env req,
    model_package_arn := ac.1,
    registryCalls := ac.2,
    model :=
      { executionRoleArn := (resolveRole env req).roleArn,
        modelName := req.id ++ "-model-" ++ get_timestamp env 0,
        containers := [ac.1],
        vpcSecurityGroupIds := ["TOKEN:SecurityGroup.securityGroupId"],
        vpcSubnets := req.subnet_ids },
    kmsKey := endpointKmsKey,
    endpointConfig :=
      { endpointConfigName := req.id ++ "-conf-" ++ get_timestamp env 1,
        kmsKeyId := endpointKmsKey.keyId,
        productionVariants := [variant],
        dependsOn := ["Model"] },
    endpoint :=
      { endpointConfigName := req.id ++ "-conf-" ++ get_timestamp env 1,
        dependsOn := ["Endpoint Configuration"] },
    endpoint_url :=
      "https://runtime.sagemaker." ++ env.region
        ++ ".amazonaws.com/endpoints/TOKEN:Endpoint.attrEndpointName/invocations",
    nagSuppressions :=
      if !(truthy req.model_execution_role_arn) then [iam5Suppression] else [],
    nodes :=
      [securityGroupNode] ++ roleNodesOf req
        ++ [modelNodeOf req, encryptionKeyNode, endpointConfigNode, endpointNode] }

/-- The whole of `DeployEndpointStack.__init__` (lines 40-202), in source
order: VPC lookup and security group, role resolution, artifact resolution
(a `ValueError` escape at line 135 leaves the security-group and role
constructs already created), model, KMS key, endpoint config (a `TypeError`
escape when the variant dict repeats `model_name` leaves the model and key
constructs already created as well), endpoint, nag suppressions. -/
def buildStack (env : Env) (req : Request) : BuildOutcome :=
  match resolveArtifact env req with
  | Except.error msg =>
      BuildOutcome.err
        { msg := msg,
          nodesEmitted := [securityGroupNode] ++ roleNodesOf req,
          registryCalls := [] }
  | Except.ok ac =>
      match productionVariantKwargs (req.id ++ "-model-" ++ get_timestamp env 0)
          req.endpoint_config_prod_variant with
      | Except.error msg =>
          BuildOutcome.err
            { msg := msg,
              nodesEmitted :=
                [securityGroupNode] ++ roleNodesOf req
                  ++ [modelNodeOf req, encryptionKeyNode],
              registryCalls := ac.2 }
      | Except.ok variant => BuildOutcome.ok (successOf env req ac variant)

/-- True when the outcome is the `ValueError` of source line 135 (the
missing-artifact configuration error). -/
def BuildOutcome.isMissingArtifactError : BuildOutcome → Bool
  | BuildOutcome.err e => e.msg == valueErrorMsg
  | BuildOutcome.ok _ => false

/-- The timestamp component of a generated resource name: its final 14
characters (`YYYYMMDDHHMMSS` is 14 characters long for four-digit years). -/
def timestampComponent (name : String) : String :=
  String.mk (name.data.drop (name.data.length - 14))

/-- Auxiliary check of topological order: every dependency of every node has
already been seen. -/
def topoOkAux (seen : List String) : List Node → Bool
  | [] => true
  | n :: rest => n.deps.all (fun d => seen.contains d) && topoOkAux (seen ++ [n.cid]) rest

/-- A node list is topologically ordered when every node's dependencies appear
earlier in the list. -/
def topoOk (nodes : List Node) : Bool :=
  topoOkAux [] nodes

/-- A machine whose timezone is UTC and whose clock does not advance during
the invocation. -/
def env0 : Env :=
  { localClock := fun _ => ⟨2024, 1, 1, 12, 0, 0⟩,
    utcClock := fun _ => ⟨2024, 1, 1, 12, 0, 0⟩,
    region := "us-east-1",
    account := "111122223333",
    vpcCidrOf := fun _ => "10.0.0.0/16",
    approved := fun _ _ => "pkg-7" }

/-- A UTC machine whose clock crosses a second boundary between the first and
the second `datetime.now()` call of the invocation. -/
def envTick : Env :=
  { env0 with
    localClock := fun call => if call == 0 then ⟨2024, 1, 1, 12, 0, 0⟩ else ⟨2024, 1, 1, 12, 0, 1⟩,
    utcClock := fun call => if call == 0 then ⟨2024, 1, 1, 12, 0, 0⟩ else ⟨2024, 1, 1, 12, 0, 1⟩ }

/-- A machine in timezone UTC+1: the local wall clock reads 13:00:00 while the
actual UTC time is 12:00:00. -/
def envTz : Env :=
  { env0 with localClock := fun _ => ⟨2024, 1, 1, 13, 0, 0⟩ }

/-- A UTC machine observing second 12:00:05, for a second invocation five
seconds after `env0`. -/
def envLater : Env :=
  { env0 with
    localClock := fun _ => ⟨2024, 1, 1, 12, 0, 5⟩,
    utcClock := fun _ => ⟨2024, 1, 1, 12, 0, 5⟩ }

/-- Scenario A of the spec: caller-supplied execution role and explicit model
package arn, no bucket or repository ids. -/
def reqA : Request :=
  { id := "dep",
    sagemaker_project_id := none,
    sagemaker_project_name := none,
    model_package_arn := some "pkg-1",
    model_package_group_name := none,
    model_execution_role_arn := some "arn:role:X",
    vpc_id := "vpc-1",
    subnet_ids := ["subnet-1", "subnet-2"],
    model_artifacts_bucket_arn := none,
    ecr_repo_arn := none,
    endpoint_config_prod_variant := [("instance_type", "ml.m5.large")] }

/-- Scenario B of the spec: no execution role, artifact group supplied. -/
def reqB : Request :=
  { reqA with
    model_execution_role_arn := none,
    model_package_arn := none,
    model_package_group_name := some "grp-A" }

/-- Scenario C of the spec: neither artifact identifier supplied. -/
def reqC : Request :=
  { reqA with
    model_package_arn := none,
    model_package_group_name := none }

/-- No execution role, model-artifacts bucket supplied (the scoped-grant
path). -/
def reqNB : Request :=
  { reqB with model_artifacts_bucket_arn := some "arn:aws:s3:::bucket-1" }

/-- A request whose variant configuration map contains the key
`model_name`. -/
def reqDup : Request :=
  { reqA with endpoint_config_prod_variant := [("model_name", "clash")] }

/-! Helper lemmas. -/

/-- Inversion of a successful build: the artifact resolution and the variant
keyword merge both succeeded and the result is `successOf` of their values. -/
lemma buildStack_ok_inv (env : Env) (req : Request) (r : StackResult)
    (h : buildStack env req = BuildOutcome.ok r) :
    ∃ ac variant,
      resolveArtifact env req = Except.ok ac ∧
      productionVariantKwargs (req.id ++ "-model-" ++ get_timestamp env 0)
        req.endpoint_config_prod_variant = Except.ok variant ∧
      r = successOf env req ac variant := by
  unfold buildStack at h
  cases hA : resolveArtifact env req with
  | error m => rw [hA] at h; simp at h
  | ok ac =>
    rw [hA] at h
    cases hK : productionVariantKwargs (req.id ++ "-model-" ++ get_timestamp env 0)
        req.endpoint_config_prod_variant with
    | error m => rw [hK] at h; simp at h
    | ok variant =>
      rw [hK] at h
      simp only [BuildOutcome.ok.injEq] at h
      exact ⟨ac, variant, rfl, rfl, h.symm⟩

/-- The suffix extractor returns the second operand of an append whenever that
operand is 14 characters long. -/
lemma timestampComponent_append (s t : String) (h : t.length = 14) :
    timestampComponent (s ++ t) = t := by
  have hlen : t.data.length = 14 := h
  unfold timestampComponent
  rw [String.data_append, List.length_append, hlen, Nat.add_sub_cancel, List.drop_left]

/-- Appending distinct suffixes to one prefix yields distinct strings. -/
lemma append_right_ne (s : String) {t t' : String} (h : t ≠ t') : s ++ t ≠ s ++ t' := by
  intro he
  apply h
  have hd := congrArg String.data he
  rw [String.data_append, String.data_append] at hd
  exact String.ext (List.append_cancel_left hd)

/-- Strings of different lengths are distinct. -/
lemma ne_of_length_ne {s t : String} (h : s.length ≠ t.length) : s ≠ t :=
  fun he => h (congrArg String.length he)

/-- An artifact resolution succeeds whenever at least one of the two
identifiers is truthy. -/
lemma resolveArtifact_ok_of (env : Env) (req : Request)
    (h : truthy req.model_package_arn = true ∨ truthy req.model_package_group_name = true) :
    ∃ ac, resolveArtifact env req = Except.ok ac := by
  unfold resolveArtifact
  cases ha : truthy req.model_package_arn with
  | true => exact ⟨_, rfl⟩
  | false =>
    have hg : truthy req.model_package_group_name = true := by
      rcases h with h | h
      · rw [ha] at h; cases h
      · exact h
    rw [hg]
    exact ⟨_, rfl⟩

/-- A variant keyword merge fails with the duplicate-keyword `TypeError`
whenever the splatted dict contains the key `model_name`. -/
lemma productionVariantKwargs_dup (modelName : String) (splat : List (String × String))
    (h : (splat.map Prod.fst).contains "model_name" = true) :
    productionVariantKwargs modelName splat = Except.error dupModelNameMsg := by
  unfold productionVariantKwargs
  rw [h]
  rfl

/-- An error of the variant keyword merge is always the duplicate-keyword
`TypeError`. -/
lemma productionVariantKwargs_error_msg {modelName : String} {splat : List (String × String)}
    {m : String} (h : productionVariantKwargs modelName splat = Except.error m) :
    m = dupModelNameMsg := by
  unfold productionVariantKwargs at h
  split at h
  · injection h with h
    exact h.symm
  · cases h

/-- The unscoped S3 fallback statement differs from the baseline statement. -/
lemma broad_ne_baseline : broadS3Statement ≠ baselineStatement := by decide

/-- The unscoped S3 fallback statement differs from every KMS statement. -/
lemma broad_ne_kms (region account : String) :
    broadS3Statement ≠ kmsStatement region account := by
  intro he
  have h := congrArg PolicyStatement.actions he
  rw [show (kmsStatement region account).actions
      = ["kms:Encrypt", "kms:ReEncrypt*", "kms:GenerateDataKey*", "kms:Decrypt", "kms:DescribeKey"]
    from rfl] at h
  exact absurd h (by decide)

/-- The unscoped S3 fallback statement differs from every ECR statement. -/
lemma broad_ne_ecr (resource : String) : broadS3Statement ≠ ecrStatement resource := by
  intro he
  have h := congrArg PolicyStatement.actions he
  rw [show (ecrStatement resource).actions
      = ["ecr:BatchCheckLayerAvailability", "ecr:GetDownloadUrlForLayer", "ecr:BatchGetImage"]
    from rfl] at h
  exact absurd h (by decide)

/-! Claims. -/

/-- C3: for every request with the execution-role identifier set, the resolved
role is a pure pass-through reference to the caller-supplied identifier — no
permission statements are attached, no bucket grant is made, and no Role node
is emitted (the baseline-grant, bucket-grant and unscoped-fallback logic of
Step 1 never executes). -/
theorem c3_passthrough_role (env : Env) (req : Request) (r : StackResult)
    (harn : truthy req.model_execution_role_arn = true)
    (h : buildStack env req = BuildOutcome.ok r) :
    r.role = RoleResolution.fromRoleArn (req.model_execution_role_arn.getD "")
    ∧ r.role.statements = []
    ∧ r.role.grantReadBuckets = []
    ∧ r.nodes.filter (fun n => n.kind == Kind.Role) = [] := by
  obtain ⟨ac, variant, hA, hK, rfl⟩ := buildStack_ok_inv env req r h
  refine ⟨?_, ?_, ?_, ?_⟩
  · simp [successOf, resolveRole, harn]
  · simp [successOf, resolveRole, harn, RoleResolution.statements]
  · simp [successOf, resolveRole, harn, RoleResolution.grantReadBuckets]
  · simp only [successOf, roleNodesOf, modelNodeOf, harn]
    decide

/-- Witness for C3: Scenario A, execution role supplied. -/
theorem c3_witness :
    ∃ r, buildStack env0 reqA = BuildOutcome.ok r
      ∧ r.role = RoleResolution.fromRoleArn "arn:role:X"
      ∧ r.role.statements = [] := by
  have h := c3_passthrough_role env0 reqA _ rfl rfl
  exact ⟨_, rfl, h.1, h.2.1⟩

/-- C4: for every request without an execution role, a supplied asset bucket
leads to the bucket's native read grant scoped to that bucket and the unscoped
S3 fallback statement (the observable broad-permission advisory condition) is
absent; an omitted bucket leads to the unscoped statement with s3:ListBucket
and s3:GetObject actions and resource `*`, with no bucket grant. -/
theorem c4_bucket_grant (env : Env) (req : Request) (r : StackResult)
    (hrole : truthy req.model_execution_role_arn = false)
    (h : buildStack env req = BuildOutcome.ok r) :
    (truthy req.model_artifacts_bucket_arn = true →
       r.role.grantReadBuckets = [req.model_artifacts_bucket_arn.getD ""]
       ∧ broadS3Statement ∉ r.role.statements)
    ∧ (truthy req.model_artifacts_bucket_arn = false →
       broadS3Statement ∈ r.role.statements
       ∧ r.role.grantReadBuckets = []) := by
  obtain ⟨ac, variant, hA, hK, rfl⟩ := buildStack_ok_inv env req r h
  constructor
  · intro hb
    constructor
    · simp [successOf, resolveRole, hrole, hb, RoleResolution.grantReadBuckets]
    · simp [successOf, resolveRole, hrole, hb, RoleResolution.statements,
        broad_ne_baseline, broad_ne_kms, broad_ne_ecr]
  · intro hb
    constructor
    · simp [successOf, resolveRole, hrole, hb, RoleResolution.statements]
    · simp [successOf, resolveRole, hrole, hb, RoleResolution.grantReadBuckets]

/-- Witness for C4: no execution role, bucket supplied — the scoped path. -/
theorem c4_witness :
    ∃ r, buildStack env0 reqNB = BuildOutcome.ok r
      ∧ r.role.grantReadBuckets = ["arn:aws:s3:::bucket-1"]
      ∧ broadS3Statement ∉ r.role.statements := by
  have h := (c4_bucket_grant env0 reqNB _ rfl rfl).1 rfl
  exact ⟨_, rfl, h.1, h.2⟩

/-- C9: whenever the execution role is synthesized, the AwsSolutions-IAM5
audit-suppression annotation is attached to the role with
apply_to_children=True unconditionally — independent of which bucket path was
taken. -/
theorem c9_unconditional_suppression (env : Env) (req : Request) (r : StackResult)
    (hrole : truthy req.model_execution_role_arn = false)
    (h : buildStack env req = BuildOutcome.ok r) :
    r.nagSuppressions = [iam5Suppression] := by
  obtain ⟨ac, variant, hA, hK, rfl⟩ := buildStack_ok_inv env req r h
  simp [successOf, hrole]

/-- Witness for C9: the scoped bucket-grant path was taken (no unscoped bucket
statement exists) and the suppression is attached nonetheless. -/
theorem c9_witness :
    ∃ r, buildStack env0 reqNB = BuildOutcome.ok r
      ∧ r.role.grantReadBuckets = ["arn:aws:s3:::bucket-1"]
      ∧ broadS3Statement ∉ r.role.statements
      ∧ r.nagSuppressions = [iam5Suppression] := by
  refine ⟨_, rfl, by decide, by decide, ?_⟩
  exact c9_unconditional_suppression env0 reqNB _ rfl rfl

/-- C10: every successful plan invocation creates exactly one EncryptionKey
node, independent of every request field, with key rotation enabled and
encrypt/decrypt granted to the account root principal, and the EndpointConfig
references that key's identifier. -/
theorem c10_encryption_key (env : Env) (req : Request) (r : StackResult)
    (h : buildStack env req = BuildOutcome.ok r) :
    (r.nodes.filter (fun n => n.kind == Kind.EncryptionKey)).length = 1
    ∧ r.kmsKey.enableKeyRotation = true
    ∧ r.kmsKey.grants = [("AccountRootPrincipal", "encrypt-decrypt")]
    ∧ r.endpointConfig.kmsKeyId = r.kmsKey.keyId := by
  obtain ⟨ac, variant, hA, hK, rfl⟩ := buildStack_ok_inv env req r h
  refine ⟨?_, rfl, rfl, rfl⟩
  cases hr : truthy req.model_execution_role_arn <;>
    · simp only [successOf, roleNodesOf, modelNodeOf, hr]
      decide

/-- Witness for C10. -/
theorem c10_witness :
    ∃ r, buildStack env0 reqA = BuildOutcome.ok r
      ∧ (r.nodes.filter (fun n => n.kind == Kind.EncryptionKey)).length = 1
      ∧ r.endpointConfig.kmsKeyId = r.kmsKey.keyId := by
  have h := c10_encryption_key env0 reqA _ rfl
  exact ⟨_, rfl, h.1, h.2.2.2⟩

/-- C5: artifact-version resolution — a truthy artifact identifier is used
directly with no registry call; otherwise the external lookup is called with
(region, artifact_group_id) and its result becomes the Model node's artifact
field; the missing-artifact `ValueError` is raised if and only if neither
identifier is present. -/
theorem c5_artifact_resolution (env : Env) (req : Request) :
    (∀ r, truthy req.model_package_arn = true →
        buildStack env req = BuildOutcome.ok r →
        r.model_package_arn = req.model_package_arn.getD ""
        ∧ r.registryCalls = [])
    ∧ (∀ r, truthy req.model_package_arn = false →
        truthy req.model_package_group_name = true →
        buildStack env req = BuildOutcome.ok r →
        r.registryCalls = [(env.region, req.model_package_group_name.getD "")]
        ∧ r.model_package_arn = env.approved env.region (req.model_package_group_name.getD "")
        ∧ r.model.containers = [r.model_package_arn])
    ∧ (buildStack env req).isMissingArtifactError
        = (!truthy req.model_package_arn && !truthy req.model_package_group_name) := by
  refine ⟨?_, ?_, ?_⟩
  · intro r ha h
    obtain ⟨ac, variant, hA, hK, rfl⟩ := buildStack_ok_inv env req r h
    have hres : resolveArtifact env req = Except.ok (req.model_package_arn.getD "", []) := by
      unfold resolveArtifact
      rw [ha]
      rfl
    rw [hres] at hA
    injection hA with hac
    subst hac
    exact ⟨rfl, rfl⟩
  · intro r ha hg h
    obtain ⟨ac, variant, hA, hK, rfl⟩ := buildStack_ok_inv env req r h
    have hres : resolveArtifact env req
        = Except.ok (env.approved env.region (req.model_package_group_name.getD ""),
            [(env.region, req.model_package_group_name.getD "")]) := by
      unfold resolveArtifact
      rw [ha, hg]
      rfl
    rw [hres] at hA
    injection hA with hac
    subst hac
    exact ⟨rfl, rfl, rfl⟩
  · cases ha : truthy req.model_package_arn with
    | true =>
      obtain ⟨ac, hA⟩ := resolveArtifact_ok_of env req (Or.inl ha)
      unfold buildStack
      rw [hA]
      cases hK : productionVariantKwargs (req.id ++ "-model-" ++ get_timestamp env 0)
          req.endpoint_config_prod_variant with
      | error m =>
        rw [productionVariantKwargs_error_msg hK]
        simp [BuildOutcome.isMissingArtifactError]
        decide
      | ok variant => simp [BuildOutcome.isMissingArtifactError]
    | false =>
      cases hg : truthy req.model_package_group_name with
      | true =>
        obtain ⟨ac, hA⟩ := resolveArtifact_ok_of env req (Or.inr hg)
        unfold buildStack
        rw [hA]
        cases hK : productionVariantKwargs (req.id ++ "-model-" ++ get_timestamp env 0)
            req.endpoint_config_prod_variant with
        | error m =>
          rw [productionVariantKwargs_error_msg hK]
          simp [BuildOutcome.isMissingArtifactError]
          decide
        | ok variant => simp [BuildOutcome.isMissingArtifactError]
      | false =>
        have hA : resolveArtifact env req = Except.error valueErrorMsg := by
          unfold resolveArtifact
          rw [ha, hg]
          rfl
        unfold buildStack
        rw [hA]
        simp [BuildOutcome.isMissingArtifactError]

/-- Witness for C5: Scenario B — lookup called with (region, "grp-A"); its
result "pkg-7" becomes the model's artifact field. -/
theorem c5_witness :
    ∃ r, buildStack env0 reqB = BuildOutcome.ok r
      ∧ r.registryCalls = [("us-east-1", "grp-A")]
      ∧ r.model_package_arn = "pkg-7"
      ∧ r.model.containers = ["pkg-7"] := by
  have h := (c5_artifact_resolution env0 reqB).2.1 _ rfl rfl rfl
  exact ⟨_, rfl, h.1, h.2.1, by decide⟩

/-- C8: for every request whose variant configuration map contains the key
`model_name`, plan construction fails; when the artifact resolves, it fails
exactly when assembling the EndpointConfig's production variant, with the
duplicate-keyword `TypeError`. -/
theorem c8_duplicate_model_name (env : Env) (req : Request)
    (hk : (req.endpoint_config_prod_variant.map Prod.fst).contains "model_name" = true) :
    (∀ r, buildStack env req ≠ BuildOutcome.ok r)
    ∧ ((truthy req.model_package_arn = true ∨ truthy req.model_package_group_name = true) →
        ∃ e, buildStack env req = BuildOutcome.err e ∧ e.msg = dupModelNameMsg) := by
  constructor
  · intro r h
    obtain ⟨ac, variant, hA, hK, -⟩ := buildStack_ok_inv env req r h
    rw [productionVariantKwargs_dup _ _ hk] at hK
    cases hK
  · intro hres
    obtain ⟨ac, hA⟩ := resolveArtifact_ok_of env req hres
    refine ⟨{ msg := dupModelNameMsg,
              nodesEmitted := [securityGroupNode] ++ roleNodesOf req
                ++ [modelNodeOf req, encryptionKeyNode],
              registryCalls := ac.2 }, ?_, rfl⟩
    unfold buildStack
    rw [hA, productionVariantKwargs_dup _ _ hk]

/-- Witness for C8: variant map with key `model_name`, artifact arn present. -/
theorem c8_witness :
    ∃ e, buildStack env0 reqDup = BuildOutcome.err e ∧ e.msg = dupModelNameMsg :=
  (c8_duplicate_model_name env0 reqDup rfl).2 (Or.inl rfl)

/-- C2 (counterexample): a request with neither artifact identifier does fail
with no registry lookup made, but the claim's "zero resource nodes emitted at
the point of failure" is false — the security-group construct has already been
created when the `ValueError` is raised. -/
theorem c2_counterexample :
    ∃ e, buildStack env0 reqC = BuildOutcome.err e
      ∧ e.registryCalls = []
      ∧ e.nodesEmitted ≠ [] := by
  refine ⟨_, rfl, rfl, ?_⟩
  decide

/-- C2 (amended): for every request in which neither artifact identifier is
truthy, plan construction fails with the `ValueError` before the artifact
registry is ever called; at the point of failure the SecurityGroup construct
(and the synthesized Role construct, when no execution role was supplied) has
already been created, and no Model, EndpointConfig or Endpoint node exists. -/
theorem c2_amended (env : Env) (req : Request)
    (ha : truthy req.model_package_arn = false)
    (hg : truthy req.model_package_group_name = false) :
    ∃ e, buildStack env req = BuildOutcome.err e
      ∧ e.msg = valueErrorMsg
      ∧ e.registryCalls = []
      ∧ e.nodesEmitted = [securityGroupNode] ++ roleNodesOf req
      ∧ ∀ n ∈ e.nodesEmitted, n.kind = Kind.SecurityGroup ∨ n.kind = Kind.Role := by
  have hA : resolveArtifact env req = Except.error valueErrorMsg := by
    unfold resolveArtifact
    rw [ha, hg]
    rfl
  refine ⟨_, by unfold buildStack; rw [hA], rfl, rfl, rfl, ?_⟩
  intro n hn
  cases hr : truthy req.model_execution_role_arn
  · simp [roleNodesOf, hr, securityGroupNode, roleNode] at hn
    rcases hn with rfl | rfl
    · exact Or.inl rfl
    · exact Or.inr rfl
  · simp [roleNodesOf, hr, securityGroupNode] at hn
    subst hn
    exact Or.inl rfl

/-- Witness for C2's amended theorem: Scenario C. -/
theorem c2_witness :
    ∃ e, buildStack env0 reqC = BuildOutcome.err e
      ∧ e.msg = valueErrorMsg
      ∧ e.registryCalls = [] := by
  obtain ⟨e, h1, h2, h3, -, -⟩ := c2_amended env0 reqC rfl rfl
  exact ⟨e, h1, h2, h3⟩

/-- C7 (counterexample): the emitted node kinds are not in the claimed order
Role → SecurityGroup → EncryptionKey → Model → EndpointConfig → Endpoint (the
source creates SecurityGroup before Role and Model before EncryptionKey), and
the Endpoint carries an explicit node dependency on the EndpointConfig
(`add_dependency`, line 185), not only a name reference. -/
theorem c7_counterexample :
    ∃ r, buildStack env0 reqB = BuildOutcome.ok r
      ∧ r.nodes.map Node.kind ≠
          [Kind.Role, Kind.SecurityGroup, Kind.EncryptionKey, Kind.Model,
           Kind.EndpointConfig, Kind.Endpoint]
      ∧ r.endpoint.dependsOn ≠ [] := by
  refine ⟨_, rfl, ?_, ?_⟩
  · decide
  · decide

/-- C7 (amended): the nodes are constructed in the order SecurityGroup → Role
(if newly created) → Model → EncryptionKey → EndpointConfig → Endpoint; in the
emitted node list every node's dependencies appear earlier than the node
itself (topological order holds); and the Endpoint references the
EndpointConfig by name and additionally carries an explicit node dependency on
it. -/
theorem c7_amended (env : Env) (req : Request) (r : StackResult)
    (h : buildStack env req = BuildOutcome.ok r) :
    r.nodes.map Node.kind =
      (if truthy req.model_execution_role_arn then
        [Kind.SecurityGroup, Kind.Model, Kind.EncryptionKey,
         Kind.EndpointConfig, Kind.Endpoint]
       else
        [Kind.SecurityGroup, Kind.Role, Kind.Model, Kind.EncryptionKey,
         Kind.EndpointConfig, Kind.Endpoint])
    ∧ topoOk r.nodes = true
    ∧ r.endpoint.endpointConfigName = r.endpointConfig.endpointConfigName
    ∧ r.endpoint.dependsOn = [endpointConfigNode.cid] := by
  obtain ⟨ac, variant, hA, hK, rfl⟩ := buildStack_ok_inv env req r h
  refine ⟨?_, ?_, rfl, rfl⟩
  · cases hr : truthy req.model_execution_role_arn <;>
      · simp only [successOf, roleNodesOf, modelNodeOf, hr]
        decide
  · cases hr : truthy req.model_execution_role_arn <;>
      · simp only [successOf, roleNodesOf, modelNodeOf, hr]
        decide

/-- Witness for C7's amended theorem: Scenario B, role synthesized. -/
theorem c7_witness :
    ∃ r, buildStack env0 reqB = BuildOutcome.ok r
      ∧ r.nodes.map Node.kind =
          [Kind.SecurityGroup, Kind.Role, Kind.Model, Kind.EncryptionKey,
           Kind.EndpointConfig, Kind.Endpoint]
      ∧ topoOk r.nodes = true := by
  have h := c7_amended env0 reqB _ rfl
  exact ⟨_, rfl, h.1, h.2.1⟩

/-- C1 (counterexample): the planner does not capture a single timestamp per
invocation — `get_timestamp()` is re-sampled per resource (lines 140 and 164),
so when the clock crosses a second boundary between the two calls the Model
and EndpointConfig names of one plan carry different timestamp components. -/
theorem c1_counterexample :
    ∃ r, buildStack envTick reqA = BuildOutcome.ok r
      ∧ timestampComponent r.model.modelName
          ≠ timestampComponent r.endpointConfig.endpointConfigName := by
  refine ⟨_, rfl, ?_⟩
  decide

/-- C1 (amended): each generated name embeds the timestamp of its own
`get_timestamp()` call; the Model and EndpointConfig timestamp components of
one plan are identical whenever the two clock samples fall in the same second;
and two invocations whose sampled seconds all differ yield non-colliding name
sets. -/
theorem c1_amended (env env2 : Env) (req : Request) (r r2 : StackResult)
    (h : buildStack env req = BuildOutcome.ok r)
    (h2 : buildStack env2 req = BuildOutcome.ok r2)
    (hl0 : (get_timestamp env 0).length = 14)
    (hl1 : (get_timestamp env 1).length = 14)
    (hl20 : (get_timestamp env2 0).length = 14)
    (hl21 : (get_timestamp env2 1).length = 14) :
    (r.model.modelName = req.id ++ "-model-" ++ get_timestamp env 0
      ∧ r.endpointConfig.endpointConfigName = req.id ++ "-conf-" ++ get_timestamp env 1)
    ∧ (env.localClock 0 = env.localClock 1 →
        timestampComponent r.model.modelName
          = timestampComponent r.endpointConfig.endpointConfigName)
    ∧ ((get_timestamp env 0 ≠ get_timestamp env2 0 →
          r.model.modelName ≠ r2.model.modelName)
       ∧ (get_timestamp env 1 ≠ get_timestamp env2 1 →
          r.endpointConfig.endpointConfigName ≠ r2.endpointConfig.endpointConfigName)
       ∧ r.model.modelName ≠ r2.endpointConfig.endpointConfigName
       ∧ r.endpointConfig.endpointConfigName ≠ r2.model.modelName) := by
  obtain ⟨ac, variant, hA, hK, rfl⟩ := buildStack_ok_inv env req r h
  obtain ⟨ac2, variant2, hA2, hK2, rfl⟩ := buildStack_ok_inv env2 req r2 h2
  have hm7 : ("-model-" : String).length = 7 := rfl
  have hc6 : ("-conf-" : String).length = 6 := rfl
  refine ⟨⟨rfl, rfl⟩, ?_, ?_, ?_, ?_, ?_⟩
  · intro hc
    have hts : get_timestamp env 0 = get_timestamp env 1 := by
      unfold get_timestamp
      rw [hc]
    show timestampComponent (req.id ++ "-model-" ++ get_timestamp env 0)
        = timestampComponent (req.id ++ "-conf-" ++ get_timestamp env 1)
    rw [timestampComponent_append _ _ hl0, timestampComponent_append _ _ hl1]
    exact hts
  · intro hT
    exact append_right_ne (req.id ++ "-model-") hT
  · intro hT
    exact append_right_ne (req.id ++ "-conf-") hT
  · apply ne_of_length_ne
    show (req.id ++ "-model-" ++ get_timestamp env 0).length
        ≠ (req.id ++ "-conf-" ++ get_timestamp env2 1).length
    rw [String.length_append, String.length_append, String.length_append,
      String.length_append, hl0, hl21, hm7, hc6]
    omega
  · apply ne_of_length_ne
    show (req.id ++ "-conf-" ++ get_timestamp env 1).length
        ≠ (req.id ++ "-model-" ++ get_timestamp env2 0).length
    rw [String.length_append, String.length_append, String.length_append,
      String.length_append, hl1, hl20, hm7, hc6]
    omega

/-- Witness for C1's amended theorem: one invocation with a steady clock, a
second invocation five seconds later. -/
theorem c1_amended_witness :
    ∃ r r2, buildStack env0 reqA = BuildOutcome.ok r
      ∧ buildStack envLater reqA = BuildOutcome.ok r2
      ∧ timestampComponent r.model.modelName
          = timestampComponent r.endpointConfig.endpointConfigName
      ∧ r.model.modelName ≠ r2.model.modelName
      ∧ r.model.modelName ≠ r2.endpointConfig.endpointConfigName := by
  have h := c1_amended env0 envLater reqA _ _ rfl rfl rfl rfl rfl rfl
  exact ⟨_, _, rfl, rfl, h.2.1 rfl, h.2.2.1 (by decide), h.2.2.2.2.1⟩

/-- C6: the generated names do have the form
`deployment_id ++ kind suffix ++ timestamp` with a 14-character
`YYYYMMDDHHMMSS` second-resolution stamp, but the stamp is NOT the current
time in UTC: `get_timestamp` formats `datetime.now()` — the machine's local
wall time — merely relabelled as UTC by `replace(tzinfo=timezone.utc)`.  On a
machine in timezone UTC+1 whose local clock reads 2024-01-01 13:00:00 while
the actual UTC time is 2024-01-01 12:00:00, the generated names carry
`20240101130000` instead of the UTC reading `20240101120000`. -/
theorem c6_local_time_not_utc :
    ∃ r, buildStack envTz reqA = BuildOutcome.ok r
      ∧ r.model.modelName = "dep" ++ "-model-" ++ "20240101130000"
      ∧ r.endpointConfig.endpointConfigName = "dep" ++ "-conf-" ++ "20240101130000"
      ∧ strftimeYmdHMS (envTz.utcClock 0) = "20240101120000"
      ∧ timestampComponent r.model.modelName ≠ strftimeYmdHMS (envTz.utcClock 0) := by
  refine ⟨_, rfl, ?_, ?_, ?_, ?_⟩
  · decide
  · decide
  · decide
  · decide

end SmEndpoint
